import Mathlib

/-!
Verification of the budget-progress and recurring-expense engines of the
paisa-smart-expense-tracker backend.

The definitions below are a shallow embedding of the JavaScript source:

* backend/src/controllers/budgetController.js   (calculateBudgetProgress,
  createBudget, updateBudget, configureAlerts, updateAffectedBudgets)
* backend/src/controllers/expenseController.js  (createExpense, updateExpense,
  deleteExpense)
* backend/src/controllers/recurringExpenseController.js
  (calculateNextOccurrence, createRecurringExpense, updateRecurringExpense,
  generateExpenseFromRecurring, generateDueExpenses)
* backend/src/models/budgetModel.js, expenseModel.js, recurringExpenseModel.js

Conventions of the embedding:

* Calendar dates are a structure of year/month/day numbers.  The JavaScript
  code stores dates as zero-padded ISO `YYYY-MM-DD` strings and compares them
  lexicographically, which for such strings coincides with the chronological
  (lexicographic year/month/day) order `Date.Lt` below.  JavaScript `Date`
  arithmetic (setDate / setMonth / setFullYear followed by toISOString) is
  modelled for a process running in the UTC timezone, where it is exactly
  calendar arithmetic with standard rollover of out-of-range components.
* JavaScript numbers are modelled as rationals; `Number.prototype.toFixed(2)`
  followed by `parseFloat` is `round2` (round to nearest multiple of 1/100,
  ties away from the smaller value, matching ECMA toFixed which picks the
  larger candidate on a tie).
* Fallible request handlers return `Except` / explicit outcome types; the
  dynamic-typing error branches of the validators (wrong runtime type,
  missing required field) are outside a typed embedding and are not modelled,
  the value-level checks (ranges, emptiness, membership) are.
-/

/-! ## Calendar dates -/

/-- A calendar date (year, month, day), the embedding of a `YYYY-MM-DD`
string.  `month` is 1-based (1 = January). -/
structure Date where
  year : Nat
  month : Nat
  day : Nat
deriving DecidableEq

/-- Gregorian leap-year rule, as implemented by the JavaScript `Date`. -/
def isLeap (y : Nat) : Bool :=
  (y % 4 == 0 && y % 100 != 0) || y % 400 == 0

/-- Number of days of month `m` of year `y` (months out of 1..12 fall into
the 31-day default branch; they never arise from valid dates). -/
def daysInMonth (y m : Nat) : Nat :=
  if m = 2 then (if isLeap y then 29 else 28)
  else if m = 4 ∨ m = 6 ∨ m = 9 ∨ m = 11 then 30
  else 31

/-- The date is an actual calendar date. -/
def Date.Valid (d : Date) : Prop :=
  1 ≤ d.month ∧ d.month ≤ 12 ∧ 1 ≤ d.day ∧ d.day ≤ daysInMonth d.year d.month

instance (d : Date) : Decidable d.Valid := by
  unfold Date.Valid; infer_instance

/-- Chronological strict order; for valid dates this is exactly the
lexicographic order of the zero-padded ISO strings the source compares. -/
def Date.Lt (a b : Date) : Prop :=
  a.year < b.year ∨ (a.year = b.year ∧
    (a.month < b.month ∨ (a.month = b.month ∧ a.day < b.day)))

instance (a b : Date) : Decidable (Date.Lt a b) := by
  unfold Date.Lt; infer_instance

/-- Chronological order, reflexive version (the `<=` of the ISO strings). -/
def Date.Le (a b : Date) : Prop :=
  a = b ∨ Date.Lt a b

instance (a b : Date) : Decidable (Date.Le a b) := by
  unfold Date.Le; infer_instance

theorem Date.Lt.trans' {a b c : Date} (h1 : Date.Lt a b) (h2 : Date.Lt b c) :
    Date.Lt a c := by
  unfold Date.Lt at *; omega

theorem daysInMonth_ge (y m : Nat) : 28 ≤ daysInMonth y m := by
  unfold daysInMonth; split_ifs <;> omega

theorem daysInMonth_le (y m : Nat) : daysInMonth y m ≤ 31 := by
  unfold daysInMonth; split_ifs <;> omega

/-- Day successor (`setDate(getDate() + 1)` on a valid date). -/
def Date.nextDay (d : Date) : Date :=
  if d.day < daysInMonth d.year d.month then ⟨d.year, d.month, d.day + 1⟩
  else if d.month < 12 then ⟨d.year, d.month + 1, 1⟩
  else ⟨d.year + 1, 1, 1⟩

/-- `setDate(getDate() + n)`: `n` successive calendar days. -/
def Date.addDays (d : Date) : Nat → Date
  | 0 => d
  | n + 1 => (d.addDays n).nextDay

theorem Date.lt_nextDay (d : Date) : Date.Lt d d.nextDay := by
  unfold Date.nextDay
  split_ifs <;> (unfold Date.Lt; dsimp only) <;> omega

theorem Date.nextDay_valid {d : Date} (h : d.Valid) : d.nextDay.Valid := by
  obtain ⟨h1, h2, h3, h4⟩ := h
  unfold Date.nextDay
  have g1 := daysInMonth_ge d.year (d.month + 1)
  have g2 := daysInMonth_ge (d.year + 1) 1
  split_ifs <;> (unfold Date.Valid; dsimp only) <;> omega

theorem Date.lt_addDays (d : Date) (n : Nat) (hn : 0 < n) :
    Date.Lt d (d.addDays n) := by
  induction n with
  | zero => omega
  | succ k ih =>
    show Date.Lt d (d.addDays k).nextDay
    rcases Nat.eq_zero_or_pos k with h0 | hpos
    · subst h0; exact Date.lt_nextDay d
    · exact (ih hpos).trans' (Date.lt_nextDay _)

theorem Date.addDays_valid {d : Date} (h : d.Valid) (n : Nat) :
    (d.addDays n).Valid := by
  induction n with
  | zero => exact h
  | succ k ih => exact Date.nextDay_valid ih

/-- `setMonth(getMonth() + 1)`: one calendar month later (December wraps to
January of the next year), with JavaScript day-of-month overflow rollover
(Jan 31 becomes Mar 3 in a non-leap year: the excess days spill into the
following month). -/
def Date.addMonth (d : Date) : Date :=
  if d.month = 12 then
    if d.day ≤ daysInMonth (d.year + 1) 1 then ⟨d.year + 1, 1, d.day⟩
    else ⟨d.year + 1, 2, d.day - daysInMonth (d.year + 1) 1⟩
  else
    if d.day ≤ daysInMonth d.year (d.month + 1) then ⟨d.year, d.month + 1, d.day⟩
    else if d.month + 1 = 12 then
      ⟨d.year + 1, 1, d.day - daysInMonth d.year (d.month + 1)⟩
    else ⟨d.year, d.month + 2, d.day - daysInMonth d.year (d.month + 1)⟩

/-- `setFullYear(getFullYear() + 1)`: one calendar year later, with the same
overflow rollover (Feb 29 becomes Mar 1 in a non-leap target year). -/
def Date.addYear (d : Date) : Date :=
  if d.day ≤ daysInMonth (d.year + 1) d.month then ⟨d.year + 1, d.month, d.day⟩
  else if d.month = 12 then
    ⟨d.year + 2, 1, d.day - daysInMonth (d.year + 1) d.month⟩
  else ⟨d.year + 1, d.month + 1, d.day - daysInMonth (d.year + 1) d.month⟩

theorem Date.lt_addMonth (d : Date) : Date.Lt d d.addMonth := by
  obtain ⟨y, m, dy⟩ := d
  unfold Date.addMonth Date.Lt
  dsimp only
  split_ifs <;> dsimp only <;> omega

theorem Date.addMonth_valid {d : Date} (h : d.Valid) : d.addMonth.Valid := by
  obtain ⟨y, m, dy⟩ := d
  unfold Date.Valid at h
  dsimp only at h
  obtain ⟨h1, h2, h3, h4⟩ := h
  have hd31 : dy ≤ 31 := le_trans h4 (daysInMonth_le y m)
  have hjan : daysInMonth (y + 1) 1 = 31 := by simp [daysInMonth]
  have hdec : daysInMonth y 12 = 31 := by simp [daysInMonth]
  have g1 := daysInMonth_ge y (m + 1)
  have g2 := daysInMonth_le y (m + 1)
  have g3 := daysInMonth_ge y (m + 2)
  have g4 := daysInMonth_ge (y + 1) 2
  unfold Date.addMonth Date.Valid
  dsimp only
  split_ifs <;> dsimp only <;> omega

theorem Date.lt_addYear (d : Date) : Date.Lt d d.addYear := by
  obtain ⟨y, m, dy⟩ := d
  unfold Date.addYear Date.Lt
  dsimp only
  split_ifs <;> dsimp only <;> omega

theorem Date.addYear_valid {d : Date} (h : d.Valid) : d.addYear.Valid := by
  obtain ⟨y, m, dy⟩ := d
  unfold Date.Valid at h
  dsimp only at h
  obtain ⟨h1, h2, h3, h4⟩ := h
  unfold Date.addYear Date.Valid
  dsimp only
  by_cases hfeb : m = 2
  · -- the only overflowing case: Feb 29 with a non-leap target year rolls
    -- to Mar 1
    subst hfeb
    have h28 : daysInMonth (y + 1) 2 = 28 ∨ daysInMonth (y + 1) 2 = 29 := by
      unfold daysInMonth; split_ifs <;> simp_all
    have h29 : daysInMonth y 2 = 28 ∨ daysInMonth y 2 = 29 := by
      unfold daysInMonth; split_ifs <;> simp_all
    have hmar : daysInMonth (y + 1) (2 + 1) = 31 := by norm_num [daysInMonth]
    split_ifs <;> dsimp only <;> omega
  · -- month lengths depend on the year only for February, so no overflow
    have heq : daysInMonth (y + 1) m = daysInMonth y m := by
      unfold daysInMonth; split_ifs <;> simp_all
    split_ifs <;> dsimp only <;> omega

/-! ## calculateNextOccurrence (recurringExpenseController.js, lines 23-47) -/

/-- The frequency strings admitted by the validators and the scheduler. -/
def validFrequencies : List String :=
  ["daily", "weekly", "biweekly", "monthly", "yearly"]

/-- `calculateNextOccurrence(currentDate, frequency)`: the `switch` on the
frequency string; the `default` branch throws `Error('Invalid frequency')`,
modelled as `Except.error`. -/
def calculateNextOccurrence (currentDate : Date) (frequency : String) :
    Except String Date :=
  if frequency = "daily" then Except.ok (currentDate.addDays 1)
  else if frequency = "weekly" then Except.ok (currentDate.addDays 7)
  else if frequency = "biweekly" then Except.ok (currentDate.addDays 14)
  else if frequency = "monthly" then Except.ok currentDate.addMonth
  else if frequency = "yearly" then Except.ok currentDate.addYear
  else Except.error "Invalid frequency"

theorem calculateNextOccurrence_ok_of_valid {f : String}
    (hf : f ∈ validFrequencies) (d : Date) :
    ∃ d', calculateNextOccurrence d f = Except.ok d' ∧ Date.Lt d d' ∧
      (d.Valid → d'.Valid) := by
  unfold validFrequencies at hf
  simp only [List.mem_cons, List.not_mem_nil, or_false] at hf
  rcases hf with rfl | rfl | rfl | rfl | rfl
  · exact ⟨_, rfl, d.lt_addDays 1 (by omega), fun h => Date.addDays_valid h 1⟩
  · exact ⟨_, rfl, d.lt_addDays 7 (by omega), fun h => Date.addDays_valid h 7⟩
  · exact ⟨_, rfl, d.lt_addDays 14 (by omega), fun h => Date.addDays_valid h 14⟩
  · exact ⟨_, rfl, d.lt_addMonth, fun h => Date.addMonth_valid h⟩
  · exact ⟨_, rfl, d.lt_addYear, fun h => Date.addYear_valid h⟩

theorem calculateNextOccurrence_error_of_invalid {f : String}
    (hf : f ∉ validFrequencies) (d : Date) :
    calculateNextOccurrence d f = Except.error "Invalid frequency" := by
  unfold validFrequencies at hf
  simp only [List.mem_cons, List.not_mem_nil, or_false, not_or] at hf
  obtain ⟨h1, h2, h3, h4, h5⟩ := hf
  simp [calculateNextOccurrence, h1, h2, h3, h4, h5]

/-! ## Data model (expenseModel.js / recurringExpenseModel.js) -/

/-- `String.prototype.trim()`: strip leading and trailing whitespace
(structural definition over the character list). -/
def jsTrim (s : String) : String :=
  String.mk (((s.data.dropWhile Char.isWhitespace).reverse.dropWhile
    Char.isWhitespace).reverse)

/-- An expense document, as stored in the `expenses` collection.  The
server-side bookkeeping strings (`createdAt`, `updatedAt`, document id) are
not modelled; `recurringExpenseId` is the back-reference written by the
scheduler. -/
structure Expense where
  userId : String
  amount : ℚ
  category : String
  description : String
  date : Date
  aiSuggested : Bool
  recurringExpenseId : Option String
deriving DecidableEq

/-- A recurring-expense template document of the `recurring_expenses`
collection (`id` is the Firestore document id). -/
structure RecurringTemplate where
  id : String
  userId : String
  templateName : String
  amount : ℚ
  category : String
  description : String
  frequency : String
  startDate : Date
  endDate : Option Date
  nextOccurrence : Date
  lastGenerated : Option Date
  isActive : Bool
  autoGenerate : Bool
  reminderDays : ℚ
deriving DecidableEq

/-- The caller-supplied body of `POST /api/recurring-expenses` (fields the
recurring controller reads; `Option` models an absent JSON field). -/
structure RecurringInput where
  templateName : String
  amount : ℚ
  category : String
  description : String
  frequency : String
  startDate : Date
  endDate : Option Date
  autoGenerate : Option Bool
  reminderDays : Option ℚ
  isActive : Option Bool

/-- `validateRecurringExpense` (recurringExpenseModel.js): the value-level
checks.  The runtime-type and missing-field branches of the JavaScript
validator are the dynamic-typing layer and have no counterpart in a typed
embedding; a malformed date string is modelled as an invalid `Date`. -/
def validateRecurringExpense (data : RecurringInput) : Bool :=
  decide (jsTrim data.templateName ≠ "") && decide (data.templateName.length ≤ 100) &&
  decide ((0:ℚ) ≤ data.amount) && decide (data.amount ≤ 1000000) &&
  decide (jsTrim data.category ≠ "") &&
  decide (jsTrim data.description ≠ "") && decide (data.description.length ≤ 500) &&
  validFrequencies.contains data.frequency &&
  decide data.startDate.Valid &&
  (match data.endDate with
   | none => true
   | some e => decide e.Valid && decide (Date.Lt data.startDate e)) &&
  (match data.reminderDays with
   | none => true
   | some r => decide ((0:ℚ) ≤ r) && decide (r ≤ 30))

/-- `sanitizeRecurringExpense` (recurringExpenseModel.js): trims the strings
and fills the defaults (`endDate || null`, `autoGenerate` defaulting to
true, `reminderDays || 0`, `isActive` defaulting to true).  The cursor
fields are filled by the caller; this returns them zeroed via the record the
controller then completes. -/
def sanitizeRecurringExpense (data : RecurringInput) : RecurringInput :=
  { templateName := jsTrim data.templateName
    amount := data.amount
    category := jsTrim data.category
    description := jsTrim data.description
    frequency := data.frequency
    startDate := data.startDate
    endDate := data.endDate
    autoGenerate := some (data.autoGenerate.getD true)
    reminderDays := some (data.reminderDays.getD 0)
    isActive := some (data.isActive.getD true) }

/-- `createRecurringExpense` (recurringExpenseController.js, lines 55-101):
validate, sanitize, compute `nextOccurrence` from the start date and store
the document with `lastGenerated: null`.  `freshId` is the id Firestore
assigns to the new document. -/
def createRecurringExpense (userId freshId : String) (body : RecurringInput) :
    Except String RecurringTemplate :=
  if validateRecurringExpense body then
    let s := sanitizeRecurringExpense body
    match calculateNextOccurrence s.startDate s.frequency with
    | Except.error e => Except.error e
    | Except.ok next =>
        Except.ok
          { id := freshId
            userId := userId
            templateName := s.templateName
            amount := s.amount
            category := s.category
            description := s.description
            frequency := s.frequency
            startDate := s.startDate
            endDate := s.endDate
            nextOccurrence := next
            lastGenerated := none
            isActive := s.isActive.getD true
            autoGenerate := s.autoGenerate.getD true
            reminderDays := s.reminderDays.getD 0 }
  else Except.error "Validation failed"

/-! ## updateRecurringExpense (recurringExpenseController.js, lines 295-370) -/

/-- The body of `PUT /api/recurring-expenses/:id`, restricted to the fields
that interact with the scheduling cursor (`frequency`, `startDate`); the
remaining updatable fields are spread into the document unchanged and do not
affect the recompute logic. -/
structure RecurringUpdate where
  frequency : Option String
  startDate : Option Date
deriving DecidableEq

/-- The scheduling-field checks of `validatePartialRecurringExpense`
(recurringExpenseModel.js): a present `frequency` must be one of the five
known strings, a present `startDate` must parse as a date. -/
def validatePartialRecurringExpense (data : RecurringUpdate) : Bool :=
  (match data.frequency with
   | none => true
   | some f => validFrequencies.contains f) &&
  (match data.startDate with
   | none => true
   | some s => decide s.Valid)

/-- Outcome of an update request: the HTTP branches of the handler. -/
inductive UpdateOutcome where
  | ok (updated : RecurringTemplate)
  | validationFailed
  | notFound
  | forbidden
  | serverError (msg : String)
deriving DecidableEq

/-- `updateRecurringExpense`: validate the partial body, find the document,
check ownership, and - when `frequency` or `startDate` is being changed -
recompute `nextOccurrence` from `lastGenerated || startDate` of the
*existing* document (the stored start date, not the incoming one) and the
new frequency.  `lastGenerated` is deleted from the update payload and so
never changes here.  A thrown `Invalid frequency` is caught by the handler
(500) after nothing has been written. -/
def updateRecurringExpense (store : List RecurringTemplate) (id userId : String)
    (body : RecurringUpdate) : List RecurringTemplate × UpdateOutcome :=
  if ¬ (validatePartialRecurringExpense body = true) then (store, UpdateOutcome.validationFailed)
  else
    match store.find? (fun t => t.id == id) with
    | none => (store, UpdateOutcome.notFound)
    | some t =>
      if t.userId ≠ userId then (store, UpdateOutcome.forbidden)
      else if body.frequency.isSome || body.startDate.isSome then
        let newFrequency := body.frequency.getD t.frequency
        let baseDate := t.lastGenerated.getD t.startDate
        match calculateNextOccurrence baseDate newFrequency with
        | Except.error e => (store, UpdateOutcome.serverError e)
        | Except.ok next =>
          let t' := { t with
            frequency := newFrequency
            startDate := body.startDate.getD t.startDate
            nextOccurrence := next }
          (store.map (fun x => if x.id == id then t' else x), UpdateOutcome.ok t')
      else
        (store, UpdateOutcome.ok t)

/-! ## generateExpenseFromRecurring (recurringExpenseController.js, 425-489) -/

/-- The expense document a template materializes: amount, category and
description copied, `date` the template's current `nextOccurrence`,
`aiSuggested: false`, `recurringExpenseId` the template's document id. -/
def expenseFromTemplate (t : RecurringTemplate) : Expense :=
  { userId := t.userId
    amount := t.amount
    category := t.category
    description := t.description
    date := t.nextOccurrence
    aiSuggested := false
    recurringExpenseId := some t.id }

/-- Outcome of a single-generation request. -/
inductive GenOutcome where
  | created (expenseDate : Date)
  | notFound
  | forbidden
  | serverError (msg : String)
deriving DecidableEq

/-- `generateExpenseFromRecurring`: find the template, check ownership
(note: `isActive` is never consulted), persist the new expense, then compute
the advanced cursor and update the template.  The expense insertion
(`db.collection('expenses').add`) is awaited *before*
`calculateNextOccurrence` runs, so an `Invalid frequency` throw leaves the
template untouched but the expense already stored. -/
def generateExpenseFromRecurring (templates : List RecurringTemplate)
    (expenses : List Expense) (id userId : String) :
    List RecurringTemplate × List Expense × GenOutcome :=
  match templates.find? (fun t => t.id == id) with
  | none => (templates, expenses, GenOutcome.notFound)
  | some t =>
    if t.userId ≠ userId then (templates, expenses, GenOutcome.forbidden)
    else
      let expenses' := expenses ++ [expenseFromTemplate t]
      match calculateNextOccurrence t.nextOccurrence t.frequency with
      | Except.error e => (templates, expenses', GenOutcome.serverError e)
      | Except.ok next =>
        (templates.map (fun x =>
           if x.id == id then
             { x with lastGenerated := some t.nextOccurrence, nextOccurrence := next }
           else x),
         expenses', GenOutcome.created t.nextOccurrence)

/-! ## generateDueExpenses - the cron sweep (recurringExpenseController.js,
495-556) -/

/-- The Firestore selection of the sweep: `isActive == true`,
`autoGenerate == true`, `nextOccurrence <= today`. -/
def isDue (today : Date) (t : RecurringTemplate) : Bool :=
  t.isActive && t.autoGenerate && decide (Date.Le t.nextOccurrence today)

/-- The expiry test of the sweep body: `data.endDate && data.endDate < today`
(a null end date never expires). -/
def isExpired (today : Date) (t : RecurringTemplate) : Bool :=
  match t.endDate with
  | none => false
  | some e => decide (Date.Lt e today)

/-- One advanced template, as written by the sweep batch (and by
`generateExpenseFromRecurring`): `lastGenerated` stamped with the old
cursor, `nextOccurrence` advanced one frequency step.  Only meaningful when
the frequency is valid (the error case keeps the template, which the sweep
theorems never rely on). -/
def advanceTemplate (t : RecurringTemplate) : RecurringTemplate :=
  match calculateNextOccurrence t.nextOccurrence t.frequency with
  | Except.ok next => { t with lastGenerated := some t.nextOccurrence, nextOccurrence := next }
  | Except.error _ => t

/-- The loop body of `generateDueExpenses` over the selected documents:
expired templates are deactivated and skipped (no expense, not counted), the
others are materialized and advanced.  A thrown `Invalid frequency` aborts
the whole run before the batch commits, modelled by the `Except.error`. -/
def processDueTemplates (today : Date) :
    List RecurringTemplate → Except String (List RecurringTemplate × List Expense × Nat)
  | [] => Except.ok ([], [], 0)
  | t :: rest =>
    if isExpired today t then
      match processDueTemplates today rest with
      | Except.error e => Except.error e
      | Except.ok (ts, es, n) => Except.ok ({ t with isActive := false } :: ts, es, n)
    else
      match calculateNextOccurrence t.nextOccurrence t.frequency with
      | Except.error e => Except.error e
      | Except.ok next =>
        match processDueTemplates today rest with
        | Except.error e => Except.error e
        | Except.ok (ts, es, n) =>
          Except.ok
            ({ t with lastGenerated := some t.nextOccurrence, nextOccurrence := next } :: ts,
             expenseFromTemplate t :: es, n + 1)

/-- A committed Firestore batch: every stored template whose id carries an
update in `updated` is replaced by it. -/
def applyBatch (store updated : List RecurringTemplate) : List RecurringTemplate :=
  store.map (fun t =>
    match updated.find? (fun u => u.id == t.id) with
    | some u => u
    | none => t)

/-- `generateDueExpenses(today)`: select the due templates, process them,
and commit everything in one batch; on a thrown error the batch never
commits and no store changes (the function resolves `{success: false}`,
modelled by the `Except.error` component). -/
def generateDueExpenses (today : Date) (templates : List RecurringTemplate)
    (expenses : List Expense) :
    List RecurringTemplate × List Expense × Except String Nat :=
  match processDueTemplates today (templates.filter (isDue today)) with
  | Except.error e => (templates, expenses, Except.error e)
  | Except.ok (updated, newExpenses, n) =>
    (applyBatch templates updated, expenses ++ newExpenses, Except.ok n)

/-! ## Budget data model (budgetModel.js) -/

/-- `parseFloat(x.toFixed(2))`: round to the nearest multiple of 1/100
(ECMA toFixed picks the larger candidate on an exact tie, which is
`round` = floor of x + 1/2). -/
def round2 (q : ℚ) : ℚ := (round (q * 100) : ℤ) / 100

structure Period where
  startDate : Date
  endDate : Date
deriving DecidableEq

/-- One entry of `categoryBudgets`; `spent`, `remaining`, `percentage` are
the derived fields recomputed on every progress pass. -/
structure CategoryBudget where
  category : String
  limit : ℚ
  spent : ℚ
  remaining : ℚ
  percentage : ℚ
deriving DecidableEq

/-- One alert; `triggeredAt` is an opaque timestamp string. -/
structure Alert where
  category : String
  threshold : ℚ
  triggered : Bool
  triggeredAt : Option String
deriving DecidableEq

/-- A budget document of the `budgets` collection. -/
structure Budget where
  userId : String
  name : String
  type : String
  period : Period
  categoryBudgets : List CategoryBudget
  totalLimit : ℚ
  totalSpent : ℚ
  totalRemaining : ℚ
  alerts : List Alert
  isActive : Bool
deriving DecidableEq

/-! ## calculateBudgetProgress (budgetController.js, lines 23-85) -/

/-- The per-category accumulation `categorySpending[category]` over the
period-filtered expenses (0 when the category never occurs, as for the
`|| 0` default). -/
def categorySpending (expenses : List Expense) (category : String) : ℚ :=
  ((expenses.filter (fun e => e.category == category)).map Expense.amount).sum

/-- `calculateBudgetProgress(budget, userId)`.  The Firestore query on the
`expenses` collection (`userId ==`, `date >=  startDate`, `date <= endDate`)
is the filter over `allExpenses`; `now` is the timestamp
`new Date().toISOString()` used to stamp a freshly triggered alert. -/
def calculateBudgetProgress (budget : Budget) (userId : String)
    (allExpenses : List Expense) (now : String) : Budget :=
  let expenses := allExpenses.filter (fun e =>
    e.userId == userId && decide (Date.Le budget.period.startDate e.date) &&
    decide (Date.Le e.date budget.period.endDate))
  let updatedCategoryBudgets := budget.categoryBudgets.map (fun catBudget =>
    let spent := categorySpending expenses catBudget.category
    let remaining := catBudget.limit - spent
    let percentage := if catBudget.limit > 0 then spent / catBudget.limit * 100 else 0
    { catBudget with
      spent := round2 spent
      remaining := round2 remaining
      percentage := round2 percentage })
  let totalSpent := (updatedCategoryBudgets.map CategoryBudget.spent).sum
  let totalRemaining := budget.totalLimit - totalSpent
  let updatedAlerts := budget.alerts.map (fun alert =>
    match updatedCategoryBudgets.find? (fun cb => cb.category == alert.category) with
    | none =>
      -- `catBudget && …` is undefined (falsy) when the category has no entry
      { alert with triggered := false }
    | some catBudget =>
      let shouldTrigger := decide (catBudget.percentage ≥ alert.threshold)
      { alert with
        triggered := shouldTrigger
        triggeredAt :=
          if shouldTrigger && !alert.triggered then some now else alert.triggeredAt })
  { budget with
    categoryBudgets := updatedCategoryBudgets
    totalSpent := round2 totalSpent
    totalRemaining := round2 totalRemaining
    alerts := updatedAlerts }

/-- The specification-side sum of §8: amounts of the user's expenses whose
category matches and whose date lies in the closed period interval. -/
def spentInPeriod (userId : String) (p : Period) (category : String)
    (expenses : List Expense) : ℚ :=
  ((expenses.filter (fun e =>
      e.userId == userId && e.category == category &&
      decide (Date.Le p.startDate e.date) && decide (Date.Le e.date p.endDate))).map
    Expense.amount).sum

/-! ## Budget creation and update (budgetModel.js + budgetController.js) -/

structure CategoryBudgetInput where
  category : String
  limit : ℚ
deriving DecidableEq

structure AlertInput where
  category : String
  threshold : ℚ
deriving DecidableEq

/-- The body of `POST /api/budgets`, restricted to the fields the validator
and sanitizer read. -/
structure BudgetInput where
  name : String
  type : String
  period : Period
  categoryBudgets : List CategoryBudgetInput
  alerts : Option (List AlertInput)
  isActive : Option Bool

/-- `validateBudget` (budgetModel.js): the value-level checks (a malformed
date string is an invalid `Date`; `endDate <= startDate` is rejected). -/
def validateBudget (data : BudgetInput) : Bool :=
  decide (jsTrim data.name ≠ "") && decide (data.name.length ≤ 100) &&
  ["monthly", "weekly", "custom"].contains data.type &&
  decide data.period.startDate.Valid && decide data.period.endDate.Valid &&
  decide (Date.Lt data.period.startDate data.period.endDate) &&
  decide (data.categoryBudgets ≠ []) &&
  data.categoryBudgets.all (fun cb =>
    decide (cb.category ≠ "") && decide ((0:ℚ) ≤ cb.limit) && decide (cb.limit ≤ 1000000)) &&
  (data.alerts.getD []).all (fun a =>
    decide (a.category ≠ "") && decide ((0:ℚ) ≤ a.threshold) && decide (a.threshold ≤ 100))

/-- `sanitizeBudget` (budgetModel.js, lines 117-143): trims, zeroes the
derived fields, sums `totalLimit` over the category limits, resets every
alert to untriggered, defaults `isActive` to true. -/
def sanitizeBudget (data : BudgetInput) (userId : String) : Budget :=
  { userId := userId
    name := jsTrim data.name
    type := data.type
    period := data.period
    categoryBudgets := data.categoryBudgets.map (fun cb =>
      { category := jsTrim cb.category, limit := cb.limit, spent := 0,
        remaining := cb.limit, percentage := 0 })
    totalLimit := (data.categoryBudgets.map CategoryBudgetInput.limit).sum
    totalSpent := 0
    totalRemaining := (data.categoryBudgets.map CategoryBudgetInput.limit).sum
    alerts := (data.alerts.getD []).map (fun a =>
      { category := jsTrim a.category, threshold := a.threshold,
        triggered := false, triggeredAt := none })
    isActive := data.isActive.getD true }

/-- `createBudget` (budgetController.js, lines 93-137): validate, sanitize,
compute the initial progress, store. -/
def createBudget (userId : String) (body : BudgetInput)
    (allExpenses : List Expense) (now : String) : Except String Budget :=
  if validateBudget body then
    Except.ok (calculateBudgetProgress (sanitizeBudget body userId) userId allExpenses now)
  else Except.error "Validation failed"

/-- The body of `PUT /api/budgets/:id`: every budget field the handler's
`...req.body` spread can write into the stored document and does not delete
afterwards - including a raw `totalLimit`, `period` and `alerts`, none of
which `validatePartialBudget` looks at.  A supplied `categoryBudgets`
carries full entries (the client round-trips the stored objects). -/
structure BudgetUpdate where
  name : Option String
  type : Option String
  period : Option Period
  categoryBudgets : Option (List CategoryBudget)
  totalLimit : Option ℚ
  alerts : Option (List Alert)
  isActive : Option Bool

/-- `validatePartialBudget` (budgetModel.js, lines 151-195): present fields
only; a present entry limit must be a non-negative number (0 passes). -/
def validatePartialBudget (data : BudgetUpdate) : Bool :=
  (match data.name with
   | none => true
   | some n => decide (jsTrim n ≠ "") && decide (n.length ≤ 100)) &&
  (match data.type with
   | none => true
   | some t => ["monthly", "weekly", "custom"].contains t) &&
  (match data.categoryBudgets with
   | none => true
   | some l => decide (l ≠ []) &&
       l.all (fun cb => decide (cb.category ≠ "") && decide ((0:ℚ) ≤ cb.limit)))

/-- The `parseFloat(cb.limit || cb.spent || 0)` of `updateBudget`:
JavaScript `||` falls through on the number 0, so a zero `limit` falls back
to the entry's `spent` value. -/
def limitOrSpent (cb : CategoryBudget) : ℚ :=
  if cb.limit ≠ 0 then cb.limit else if cb.spent ≠ 0 then cb.spent else 0

/-- `updateBudget` (budgetController.js, lines 352-427), as it affects the
persisted document: the whole body is spread over the stored budget, then
`totalLimit` is overwritten with the `limitOrSpent` sum when
`categoryBudgets` is supplied, and only `userId`, `createdAt`, `id`,
`totalSpent` and `totalRemaining` are deleted from the payload (those keep
their stored values).  `totalLimit` is *not* deleted: with no
`categoryBudgets` in the body, a body-supplied `totalLimit` is persisted
verbatim.  The not-found/ownership branches and the transient progress
recompute of the HTTP response do not touch the stored document and are
left out. -/
def updateBudget (b : Budget) (body : BudgetUpdate) : Except String Budget :=
  if ¬ (validatePartialBudget body = true) then Except.error "Validation failed"
  else Except.ok { b with
    name := body.name.getD b.name
    type := body.type.getD b.type
    period := body.period.getD b.period
    alerts := body.alerts.getD b.alerts
    isActive := body.isActive.getD b.isActive
    categoryBudgets := body.categoryBudgets.getD b.categoryBudgets
    totalLimit :=
      match body.categoryBudgets with
      | some l => (l.map limitOrSpent).sum
      | none => body.totalLimit.getD b.totalLimit }

/-- `configureAlerts` (budgetController.js, lines 482-557): replaces the
alert list, resetting every alert to `triggered: false, triggeredAt: null`. -/
def configureAlerts (b : Budget) (alerts : List AlertInput) : Except String Budget :=
  if alerts.all (fun a =>
      decide (a.category ≠ "") && decide ((0:ℚ) ≤ a.threshold) &&
      decide (a.threshold ≤ 100)) then
    Except.ok { b with alerts := alerts.map (fun a =>
      { category := a.category, threshold := a.threshold,
        triggered := false, triggeredAt := none }) }
  else Except.error "Invalid alerts"

/-- `updateAffectedBudgets` (budgetController.js, lines 566-604): recompute
and batch-write the progress of every active budget of the user whose
period contains the expense date.  Defined and exported by the source - but
never invoked by any expense handler. -/
def updateAffectedBudgets (userId : String) (expenseDate : Date)
    (budgets : List Budget) (expenses : List Expense) (now : String) :
    List Budget :=
  budgets.map (fun b =>
    if b.userId == userId && b.isActive &&
       decide (Date.Le b.period.startDate expenseDate) &&
       decide (Date.Le expenseDate b.period.endDate) then
      let p := calculateBudgetProgress b userId expenses now
      { b with categoryBudgets := p.categoryBudgets, totalSpent := p.totalSpent,
               totalRemaining := p.totalRemaining, alerts := p.alerts }
    else b)

/-! ## Expense handlers (expenseController.js) -/

/-- The two stores the expense handlers could touch. -/
structure Stores where
  expenses : List Expense
  budgets : List Budget
deriving DecidableEq

/-- The body of `POST /api/expenses`. -/
structure ExpenseInput where
  amount : ℚ
  category : String
  description : String
  date : Date
  aiSuggested : Option Bool

/-- `validateExpense` (expenseModel.js): the value-level checks. -/
def validateExpense (data : ExpenseInput) : Bool :=
  decide ((0:ℚ) ≤ data.amount) && decide (data.amount ≤ 1000000) &&
  decide (jsTrim data.category ≠ "") && decide (data.category.length ≤ 50) &&
  decide (jsTrim data.description ≠ "") && decide (data.description.length ≤ 500) &&
  decide data.date.Valid

/-- `sanitizeExpense` (expenseModel.js): trim and default `aiSuggested`. -/
def sanitizeExpense (data : ExpenseInput) : ExpenseInput :=
  { amount := data.amount
    category := jsTrim data.category
    description := jsTrim data.description
    date := data.date
    aiSuggested := some (data.aiSuggested.getD false) }

inductive ExpenseOutcome where
  | created (e : Expense)
  | updated (e : Expense)
  | deleted
  | validationFailed
  | notFound
  | forbidden
deriving DecidableEq

/-- `createExpense` (expenseController.js, lines 635-678): validate,
sanitize, add the server-side fields and store.  The handler returns right
after the insert: it never reads or writes the `budgets` collection
(`updateAffectedBudgets` is not called). -/
def createExpense (s : Stores) (userId : String) (body : ExpenseInput) :
    Stores × ExpenseOutcome :=
  if validateExpense body then
    let d := sanitizeExpense body
    let e : Expense :=
      { userId := userId
        amount := d.amount
        category := d.category
        description := d.description
        date := d.date
        aiSuggested := d.aiSuggested.getD false
        recurringExpenseId := none }
    ({ s with expenses := s.expenses ++ [e] }, ExpenseOutcome.created e)
  else (s, ExpenseOutcome.validationFailed)

/-- The body of `PUT /api/expenses/:id` (present fields only). -/
structure ExpenseUpdate where
  amount : Option ℚ
  category : Option String
  description : Option String
  date : Option Date
  aiSuggested : Option Bool

/-- `validatePartialExpense` (expenseModel.js): per-present-field checks. -/
def validatePartialExpense (data : ExpenseUpdate) : Bool :=
  (match data.amount with
   | none => true
   | some a => decide ((0:ℚ) ≤ a) && decide (a ≤ 1000000)) &&
  (match data.category with
   | none => true
   | some c => decide (jsTrim c ≠ "") && decide (c.length ≤ 50)) &&
  (match data.description with
   | none => true
   | some d => decide (jsTrim d ≠ "") && decide (d.length ≤ 500)) &&
  (match data.date with
   | none => true
   | some d => decide d.Valid)

/-- The spread of the update body over the stored document (`userId`,
`createdAt` and `id` are deleted from the payload first). -/
def applyExpenseUpdate (e : Expense) (u : ExpenseUpdate) : Expense :=
  { e with
    amount := u.amount.getD e.amount
    category := u.category.getD e.category
    description := u.description.getD e.description
    date := u.date.getD e.date
    aiSuggested := u.aiSuggested.getD e.aiSuggested }

/-- `updateExpense` (expenseController.js, lines 839-906).  Document ids are
modelled by the position in the stored list.  The handler writes only the
one expense document; the `budgets` collection is untouched. -/
def updateExpense (s : Stores) (idx : Nat) (userId : String)
    (body : ExpenseUpdate) : Stores × ExpenseOutcome :=
  if ¬ (validatePartialExpense body = true) then (s, ExpenseOutcome.validationFailed)
  else
    match s.expenses[idx]? with
    | none => (s, ExpenseOutcome.notFound)
    | some e =>
      if e.userId ≠ userId then (s, ExpenseOutcome.forbidden)
      else
        let e' := applyExpenseUpdate e body
        ({ s with expenses := s.expenses.set idx e' }, ExpenseOutcome.updated e')

/-- `deleteExpense` (expenseController.js, lines 914-954): delete the one
document after the ownership check; the `budgets` collection is untouched. -/
def deleteExpense (s : Stores) (idx : Nat) (userId : String) :
    Stores × ExpenseOutcome :=
  match s.expenses[idx]? with
  | none => (s, ExpenseOutcome.notFound)
  | some e =>
    if e.userId ≠ userId then (s, ExpenseOutcome.forbidden)
    else ({ s with expenses := s.expenses.eraseIdx idx }, ExpenseOutcome.deleted)

/-! ## Helper lemmas -/

theorem round2_zero : round2 0 = 0 := by
  simp [round2]

/-- A sweep pass over templates whose frequencies all resolve: expired ones
are deactivated and skipped, the rest are materialized and advanced, and the
count is the number of non-expired ones. -/
theorem processDueTemplates_eq (today : Date) (ts : List RecurringTemplate)
    (hf : ∀ t ∈ ts, t.frequency ∈ validFrequencies) :
    processDueTemplates today ts = Except.ok
      (ts.map (fun t =>
         if isExpired today t then { t with isActive := false } else advanceTemplate t),
       (ts.filter (fun t => !isExpired today t)).map expenseFromTemplate,
       (ts.filter (fun t => !isExpired today t)).length) := by
  induction ts with
  | nil => rfl
  | cons t rest ih =>
    have ht : t.frequency ∈ validFrequencies := hf t (by simp)
    have hrest : ∀ u ∈ rest, u.frequency ∈ validFrequencies :=
      fun u hu => hf u (by simp [hu])
    by_cases hexp : isExpired today t = true
    · simp [processDueTemplates, hexp, ih hrest]
    · obtain ⟨d', hok, _, _⟩ := calculateNextOccurrence_ok_of_valid ht t.nextOccurrence
      simp [processDueTemplates, hexp, hok, ih hrest, advanceTemplate]

/-- A sweep pass containing a non-expired selected template with an
unresolvable frequency aborts with the thrown error. -/
theorem processDueTemplates_error (today : Date) (ts : List RecurringTemplate)
    (h : ∃ t ∈ ts, isExpired today t = false ∧ t.frequency ∉ validFrequencies) :
    processDueTemplates today ts = Except.error "Invalid frequency" := by
  induction ts with
  | nil => simp at h
  | cons t rest ih =>
    obtain ⟨w, hw, hwexp, hwf⟩ := h
    rcases List.mem_cons.mp hw with rfl | hwrest
    · have herr := calculateNextOccurrence_error_of_invalid hwf w.nextOccurrence
      simp [processDueTemplates, hwexp, herr]
    · by_cases hexp : isExpired today t = true
      · simp [processDueTemplates, hexp, ih ⟨w, hwrest, hwexp, hwf⟩]
      · by_cases hft : t.frequency ∈ validFrequencies
        · obtain ⟨d', hok, _, _⟩ := calculateNextOccurrence_ok_of_valid hft t.nextOccurrence
          simp [processDueTemplates, hexp, hok, ih ⟨w, hwrest, hwexp, hwf⟩]
        · have herr := calculateNextOccurrence_error_of_invalid hft t.nextOccurrence
          simp [processDueTemplates, hexp, herr]

/-- The program's two-stage filter (period query, then per-category
accumulation) computes the specification's one combined sum. -/
theorem categorySpending_eq_spentInPeriod (userId : String) (p : Period)
    (c : String) (es : List Expense) :
    categorySpending
      (es.filter (fun e =>
        e.userId == userId && decide (Date.Le p.startDate e.date) &&
        decide (Date.Le e.date p.endDate))) c =
    spentInPeriod userId p c es := by
  unfold categorySpending spentInPeriod
  rw [List.filter_filter]
  congr 1
  congr 1
  apply List.filter_congr
  intro e _
  cases h1 : e.userId == userId <;> cases h2 : e.category == c <;>
    cases h3 : decide (Date.Le p.startDate e.date) <;>
    cases h4 : decide (Date.Le e.date p.endDate) <;> simp [h1, h2, h3, h4]

/-- A progress pass never changes `totalLimit`. -/
theorem calculateBudgetProgress_totalLimit (b : Budget) (userId : String)
    (es : List Expense) (now : String) :
    (calculateBudgetProgress b userId es now).totalLimit = b.totalLimit := rfl

/-- A progress pass never changes the category limits. -/
theorem calculateBudgetProgress_limits (b : Budget) (userId : String)
    (es : List Expense) (now : String) :
    (calculateBudgetProgress b userId es now).categoryBudgets.map CategoryBudget.limit =
      b.categoryBudgets.map CategoryBudget.limit := by
  unfold calculateBudgetProgress
  rw [List.map_map]
  rfl

/-- The sanitizer establishes the totalLimit invariant at creation. -/
theorem sanitizeBudget_totalLimit (data : BudgetInput) (userId : String) :
    (sanitizeBudget data userId).totalLimit =
      ((sanitizeBudget data userId).categoryBudgets.map CategoryBudget.limit).sum := by
  unfold sanitizeBudget
  rw [List.map_map]
  rfl

/-- A passing create-validation certifies the frequency string. -/
theorem validateRecurringExpense_frequency {d : RecurringInput}
    (h : validateRecurringExpense d = true) : d.frequency ∈ validFrequencies := by
  by_contra hmem
  have hc : validFrequencies.contains d.frequency = false := by
    simpa using hmem
  unfold validateRecurringExpense at h
  rw [hc] at h
  simp at h

/-! ## Claims -/

/-- C4: for every valid calendar date `d` and every frequency in
{daily, weekly, biweekly, monthly, yearly}, `calculateNextOccurrence d f`
succeeds and returns a calendar date strictly greater than `d`. -/
theorem C4_advance_strictly_increasing (d : Date) (f : String)
    (hd : d.Valid) (hf : f ∈ validFrequencies) :
    ∃ d', calculateNextOccurrence d f = Except.ok d' ∧ d'.Valid ∧ Date.Lt d d' := by
  obtain ⟨d', hok, hlt, hval⟩ := calculateNextOccurrence_ok_of_valid hf d
  exact ⟨d', hok, hval hd, hlt⟩

/-- C4 witness: Jan 31, 2025 advanced monthly (the Mar 3 rollover case). -/
theorem C4_advance_strictly_increasing_witness :
    (Date.mk 2025 1 31).Valid ∧ "monthly" ∈ validFrequencies ∧
    (∃ d', calculateNextOccurrence ⟨2025, 1, 31⟩ "monthly" = Except.ok d' ∧
       d'.Valid ∧ Date.Lt ⟨2025, 1, 31⟩ d') :=
  ⟨by decide, by decide,
   C4_advance_strictly_increasing ⟨2025, 1, 31⟩ "monthly" (by decide) (by decide)⟩

/-- C10: creating a template stores
`nextOccurrence = advance(startDate, frequency)` and `lastGenerated = null`;
with advance strictly increasing, no occurrence is ever scheduled for the
start date itself. -/
theorem C10_create_anchors_one_step_after_start (userId freshId : String)
    (body : RecurringInput) (hv : validateRecurringExpense body = true) :
    ∃ t, createRecurringExpense userId freshId body = Except.ok t ∧
      t.startDate = body.startDate ∧
      calculateNextOccurrence body.startDate body.frequency = Except.ok t.nextOccurrence ∧
      t.lastGenerated = none ∧
      Date.Lt body.startDate t.nextOccurrence := by
  have hf : body.frequency ∈ validFrequencies := validateRecurringExpense_frequency hv
  obtain ⟨d', hok, hlt, _⟩ := calculateNextOccurrence_ok_of_valid hf body.startDate
  have hok' : calculateNextOccurrence (sanitizeRecurringExpense body).startDate
      (sanitizeRecurringExpense body).frequency = Except.ok d' := hok
  unfold createRecurringExpense
  simp only [hv, reduceIte]
  rw [hok']
  exact ⟨_, rfl, rfl, hok, rfl, hlt⟩

/-- C10 witness: a monthly template started Jan 31, 2025 is stored with
cursor Mar 3, 2025 and no generation yet. -/
theorem C10_create_anchors_one_step_after_start_witness :
    validateRecurringExpense
      { templateName := "Rent", amount := 1200, category := "Housing",
        description := "Flat rent", frequency := "monthly",
        startDate := ⟨2025, 1, 31⟩, endDate := none, autoGenerate := none,
        reminderDays := none, isActive := none } = true ∧
    (∃ t, createRecurringExpense "u10" "rt10"
        { templateName := "Rent", amount := 1200, category := "Housing",
          description := "Flat rent", frequency := "monthly",
          startDate := ⟨2025, 1, 31⟩, endDate := none, autoGenerate := none,
          reminderDays := none, isActive := none } = Except.ok t ∧
      t.startDate = ⟨2025, 1, 31⟩ ∧
      calculateNextOccurrence ⟨2025, 1, 31⟩ "monthly" = Except.ok t.nextOccurrence ∧
      t.lastGenerated = none ∧
      Date.Lt ⟨2025, 1, 31⟩ t.nextOccurrence) :=
  ⟨by decide,
   C10_create_anchors_one_step_after_start "u10" "rt10" _ (by decide)⟩

/-- C5: in the bulk sweep, a selected template whose `endDate` has passed is
deactivated, generates no expense and is not counted; every other selected
template yields exactly one expense dated at its old `nextOccurrence`
(`expenseFromTemplate` copies that date) and has its cursor advanced one
frequency step; unselected templates are untouched. -/
theorem C5_sweep_expired_skipped_others_generated (today : Date)
    (templates : List RecurringTemplate) (expenses : List Expense)
    (hf : ∀ t ∈ templates.filter (isDue today), t.frequency ∈ validFrequencies) :
    generateDueExpenses today templates expenses =
      (applyBatch templates
         ((templates.filter (isDue today)).map (fun t =>
            if isExpired today t then { t with isActive := false }
            else advanceTemplate t)),
       expenses ++
         (((templates.filter (isDue today)).filter
            (fun t => !isExpired today t)).map expenseFromTemplate),
       Except.ok (((templates.filter (isDue today)).filter
          (fun t => !isExpired today t)).length)) := by
  unfold generateDueExpenses
  rw [processDueTemplates_eq today _ hf]

/-- The stale expired template of spec section 8: endDate May 1, 2025,
cursor Apr 15, 2025, swept on Jun 1, 2025. -/
def staleTemplate : RecurringTemplate :=
  { id := "rt5", userId := "u5", templateName := "Box", amount := 20,
    category := "Services", description := "Box subscription",
    frequency := "monthly", startDate := ⟨2025, 3, 15⟩,
    endDate := some ⟨2025, 5, 1⟩, nextOccurrence := ⟨2025, 4, 15⟩,
    lastGenerated := some ⟨2025, 3, 15⟩, isActive := true,
    autoGenerate := true, reminderDays := 0 }

/-- C5 witness: sweeping the stale expired template on Jun 1, 2025
deactivates it and generates zero expenses. -/
theorem C5_sweep_expired_skipped_others_generated_witness :
    (∀ t ∈ [staleTemplate].filter (isDue ⟨2025, 6, 1⟩),
       t.frequency ∈ validFrequencies) ∧
    generateDueExpenses ⟨2025, 6, 1⟩ [staleTemplate] [] =
      (applyBatch [staleTemplate]
         (([staleTemplate].filter (isDue ⟨2025, 6, 1⟩)).map (fun t =>
            if isExpired ⟨2025, 6, 1⟩ t then { t with isActive := false }
            else advanceTemplate t)),
       [] ++
         ((([staleTemplate].filter (isDue ⟨2025, 6, 1⟩)).filter
            (fun t => !isExpired ⟨2025, 6, 1⟩ t)).map expenseFromTemplate),
       Except.ok ((([staleTemplate].filter (isDue ⟨2025, 6, 1⟩)).filter
          (fun t => !isExpired ⟨2025, 6, 1⟩ t)).length)) :=
  ⟨by decide,
   C5_sweep_expired_skipped_others_generated ⟨2025, 6, 1⟩ [staleTemplate] [] (by decide)⟩

/-- An inactive template (isActive and autoGenerate both false). -/
def inactiveTemplate : RecurringTemplate :=
  { id := "rt8", userId := "u8", templateName := "Stream", amount := 10,
    category := "Entertainment", description := "Streaming plan",
    frequency := "monthly", startDate := ⟨2025, 1, 15⟩, endDate := none,
    nextOccurrence := ⟨2025, 2, 15⟩, lastGenerated := some ⟨2025, 1, 15⟩,
    isActive := false, autoGenerate := false, reminderDays := 0 }

/-- C8 counterexample: `generateExpenseFromRecurring` invoked on a template
with `isActive = false` still creates the expense and advances
`lastGenerated` and `nextOccurrence` - the handler never reads `isActive`. -/
theorem C8_counterexample :
    inactiveTemplate.isActive = false ∧
    generateExpenseFromRecurring [inactiveTemplate] [] "rt8" "u8" =
      ([{ inactiveTemplate with
          lastGenerated := some ⟨2025, 2, 15⟩
          nextOccurrence := ⟨2025, 3, 15⟩ }],
       [expenseFromTemplate inactiveTemplate],
       GenOutcome.created ⟨2025, 2, 15⟩) := by
  decide

/-- C8 (amended): on-demand generation checks only existence and ownership;
whatever `isActive` holds, it stores the copied expense dated at the current
cursor and advances the cursor one frequency step. -/
theorem C8_generate_ignores_isActive (templates : List RecurringTemplate)
    (expenses : List Expense) (id userId : String) (t : RecurringTemplate)
    (hfind : templates.find? (fun u => u.id == id) = some t)
    (hown : t.userId = userId)
    (hf : t.frequency ∈ validFrequencies) :
    ∃ next, calculateNextOccurrence t.nextOccurrence t.frequency = Except.ok next ∧
      generateExpenseFromRecurring templates expenses id userId =
        (templates.map (fun x =>
           if x.id == id then
             { x with lastGenerated := some t.nextOccurrence, nextOccurrence := next }
           else x),
         expenses ++ [expenseFromTemplate t], GenOutcome.created t.nextOccurrence) := by
  obtain ⟨next, hok, _, _⟩ := calculateNextOccurrence_ok_of_valid hf t.nextOccurrence
  refine ⟨next, hok, ?_⟩
  unfold generateExpenseFromRecurring
  rw [hfind]
  simp [hown, hok]

/-- C8 witness: the amended behavior at the concrete inactive template. -/
theorem C8_generate_ignores_isActive_witness :
    ([inactiveTemplate].find? (fun u => u.id == "rt8") = some inactiveTemplate) ∧
    inactiveTemplate.userId = "u8" ∧
    inactiveTemplate.frequency ∈ validFrequencies ∧
    (∃ next, calculateNextOccurrence inactiveTemplate.nextOccurrence
        inactiveTemplate.frequency = Except.ok next ∧
      generateExpenseFromRecurring [inactiveTemplate] [] "rt8" "u8" =
        ([inactiveTemplate].map (fun x =>
           if x.id == "rt8" then
             { x with
               lastGenerated := some inactiveTemplate.nextOccurrence
               nextOccurrence := next }
           else x),
         [] ++ [expenseFromTemplate inactiveTemplate],
         GenOutcome.created inactiveTemplate.nextOccurrence)) :=
  ⟨by decide, by decide, by decide,
   C8_generate_ignores_isActive [inactiveTemplate] [] "rt8" "u8" inactiveTemplate
     (by decide) (by decide) (by decide)⟩

/-- A stored template carrying a frequency outside the five known strings
(such a document can only exist out of band, since both validators reject
it; Firestore itself enforces no schema). -/
def badFrequencyTemplate : RecurringTemplate :=
  { id := "rt9", userId := "u9", templateName := "Quarterly tax", amount := 150,
    category := "Taxes", description := "Quarterly prepayment",
    frequency := "quarterly", startDate := ⟨2025, 1, 1⟩, endDate := none,
    nextOccurrence := ⟨2025, 4, 1⟩, lastGenerated := none, isActive := true,
    autoGenerate := true, reminderDays := 0 }

/-- C9 counterexample: on-demand generation on a template whose frequency
cannot be resolved raises the fatal error *after* the expense insert has
been awaited: the template is unchanged but the expense store has grown, so
the error is not raised before any state mutation. -/
theorem C9_counterexample :
    badFrequencyTemplate.frequency ∉ validFrequencies ∧
    generateExpenseFromRecurring [badFrequencyTemplate] [] "rt9" "u9" =
      ([badFrequencyTemplate], [expenseFromTemplate badFrequencyTemplate],
       GenOutcome.serverError "Invalid frequency") := by
  decide

/-- C9 (amended): a frequency outside the five known strings reaching
`calculateNextOccurrence` raises the fatal `Invalid frequency` error and the
stored template is left unchanged on every path; the update handler and the
bulk sweep mutate no state at all, while the on-demand generate handler has
already persisted the copied expense when the error is raised. -/
theorem C9_invalid_frequency_fatal :
    (∀ (store : List RecurringTemplate) (id userId : String)
        (body : RecurringUpdate) (t : RecurringTemplate),
        validatePartialRecurringExpense body = true →
        store.find? (fun u => u.id == id) = some t →
        t.userId = userId →
        body.frequency = none →
        body.startDate.isSome = true →
        t.frequency ∉ validFrequencies →
        updateRecurringExpense store id userId body =
          (store, UpdateOutcome.serverError "Invalid frequency")) ∧
    (∀ (today : Date) (templates : List RecurringTemplate) (expenses : List Expense),
        (∃ t ∈ templates.filter (isDue today),
           isExpired today t = false ∧ t.frequency ∉ validFrequencies) →
        generateDueExpenses today templates expenses =
          (templates, expenses, Except.error "Invalid frequency")) ∧
    (∀ (templates : List RecurringTemplate) (expenses : List Expense)
        (id userId : String) (t : RecurringTemplate),
        templates.find? (fun u => u.id == id) = some t →
        t.userId = userId →
        t.frequency ∉ validFrequencies →
        generateExpenseFromRecurring templates expenses id userId =
          (templates, expenses ++ [expenseFromTemplate t],
           GenOutcome.serverError "Invalid frequency")) := by
  refine ⟨?_, ?_, ?_⟩
  · intro store id userId body t hv hfind hown hfnone hssome hbad
    have herr := calculateNextOccurrence_error_of_invalid hbad
      (t.lastGenerated.getD t.startDate)
    unfold updateRecurringExpense
    rw [hfind]
    simp [hv, hown, hfnone, hssome, herr]
  · intro today templates expenses hex
    unfold generateDueExpenses
    rw [processDueTemplates_error today _ hex]
  · intro templates expenses id userId t hfind hown hbad
    have herr := calculateNextOccurrence_error_of_invalid hbad t.nextOccurrence
    unfold generateExpenseFromRecurring
    rw [hfind]
    simp [hown, herr]

/-- A never-generated daily template anchored at Jan 1, 2025. -/
def driftTemplate : RecurringTemplate :=
  { id := "rt6", userId := "u6", templateName := "Water", amount := 25,
    category := "Utilities", description := "Water bill",
    frequency := "daily", startDate := ⟨2025, 1, 1⟩, endDate := none,
    nextOccurrence := ⟨2025, 1, 2⟩, lastGenerated := none, isActive := true,
    autoGenerate := true, reminderDays := 0 }

/-- An edit that changes only the start date (to Jun 1, 2025). -/
def startDateEdit : RecurringUpdate :=
  { frequency := none, startDate := some ⟨2025, 6, 1⟩ }

instance : DecidableEq (Except String Date) := fun a b =>
  match a, b with
  | Except.ok x, Except.ok y =>
    if h : x = y then isTrue (by rw [h]) else isFalse (by simp [h])
  | Except.error x, Except.error y =>
    if h : x = y then isTrue (by rw [h]) else isFalse (by simp [h])
  | Except.ok _, Except.error _ => isFalse (by simp)
  | Except.error _, Except.ok _ => isFalse (by simp)

/-- C6 counterexample: editing the start date of a never-generated daily
template to Jun 1, 2025 persists `nextOccurrence = Jan 2, 2025` - advanced
from the *old* stored start date - not `advance(newStartDate) = Jun 2,
2025` as the claim requires. -/
theorem C6_counterexample :
    driftTemplate.lastGenerated = none ∧
    (updateRecurringExpense [driftTemplate] "rt6" "u6" startDateEdit).2 =
      UpdateOutcome.ok { driftTemplate with
                         startDate := ⟨2025, 6, 1⟩
                         nextOccurrence := ⟨2025, 1, 2⟩ } ∧
    calculateNextOccurrence ⟨2025, 6, 1⟩ "daily" = Except.ok ⟨2025, 6, 2⟩ ∧
    ((⟨2025, 1, 2⟩ : Date) ≠ ⟨2025, 6, 2⟩) := by
  decide

/-- C6 (amended): when an update changes `frequency` or `startDate`, the
persisted `nextOccurrence` is `advance(lastGenerated ?? startDate,
newFrequency)` where the fallback `startDate` is the *pre-edit stored* start
date; a startDate supplied in the edit is persisted but not used as the
recompute base. -/
theorem C6_update_recomputes_from_stored_base (store : List RecurringTemplate)
    (id userId : String) (body : RecurringUpdate) (t : RecurringTemplate)
    (hv : validatePartialRecurringExpense body = true)
    (hfind : store.find? (fun u => u.id == id) = some t)
    (hown : t.userId = userId)
    (hchange : (body.frequency.isSome || body.startDate.isSome) = true)
    (hf : body.frequency.getD t.frequency ∈ validFrequencies) :
    ∃ next,
      calculateNextOccurrence (t.lastGenerated.getD t.startDate)
        (body.frequency.getD t.frequency) = Except.ok next ∧
      updateRecurringExpense store id userId body =
        (store.map (fun x =>
           if x.id == id then
             { t with
               frequency := body.frequency.getD t.frequency
               startDate := body.startDate.getD t.startDate
               nextOccurrence := next }
           else x),
         UpdateOutcome.ok
           { t with
             frequency := body.frequency.getD t.frequency
             startDate := body.startDate.getD t.startDate
             nextOccurrence := next }) := by
  obtain ⟨next, hok, _, _⟩ :=
    calculateNextOccurrence_ok_of_valid hf (t.lastGenerated.getD t.startDate)
  refine ⟨next, hok, ?_⟩
  unfold updateRecurringExpense
  rw [hfind]
  simp [hv, hown, hchange, hok]

/-- C6 witness: the amended recompute at the concrete never-generated
template and start-date edit. -/
theorem C6_update_recomputes_from_stored_base_witness :
    validatePartialRecurringExpense startDateEdit = true ∧
    ([driftTemplate].find? (fun u => u.id == "rt6") = some driftTemplate) ∧
    driftTemplate.userId = "u6" ∧
    (startDateEdit.frequency.isSome || startDateEdit.startDate.isSome) = true ∧
    startDateEdit.frequency.getD driftTemplate.frequency ∈ validFrequencies ∧
    (∃ next,
      calculateNextOccurrence
        (driftTemplate.lastGenerated.getD driftTemplate.startDate)
        (startDateEdit.frequency.getD driftTemplate.frequency) = Except.ok next ∧
      updateRecurringExpense [driftTemplate] "rt6" "u6" startDateEdit =
        ([driftTemplate].map (fun x =>
           if x.id == "rt6" then
             { driftTemplate with
               frequency := startDateEdit.frequency.getD driftTemplate.frequency
               startDate := startDateEdit.startDate.getD driftTemplate.startDate
               nextOccurrence := next }
           else x),
         UpdateOutcome.ok
           { driftTemplate with
             frequency := startDateEdit.frequency.getD driftTemplate.frequency
             startDate := startDateEdit.startDate.getD driftTemplate.startDate
             nextOccurrence := next })) :=
  ⟨by decide, by decide, by decide, by decide, by decide,
   C6_update_recomputes_from_stored_base [driftTemplate] "rt6" "u6" startDateEdit
     driftTemplate (by decide) (by decide) (by decide) (by decide) (by decide)⟩

/-- C1: each entry of the computed `categoryBudgets` carries
`spent` = the 2-decimal rounding of the sum of the user's expenses with the
entry's category and a date inside the closed period interval (0 when there
are none, the empty sum), `remaining` = the rounding of `limit - spent`
with no clamping, and `percentage` = the rounding of `spent / limit * 100`
when `limit > 0` and exactly 0 when `limit = 0` (the guard, never a
division); everything else in the entry is unchanged. -/
theorem C1_per_category_progress (b : Budget) (userId : String)
    (es : List Expense) (now : String) (i : Nat) (cb : CategoryBudget)
    (h : b.categoryBudgets[i]? = some cb) :
    (calculateBudgetProgress b userId es now).categoryBudgets[i]? = some
      { cb with
        spent := round2 (spentInPeriod userId b.period cb.category es)
        remaining := round2 (cb.limit - spentInPeriod userId b.period cb.category es)
        percentage :=
          if cb.limit > 0 then
            round2 (spentInPeriod userId b.period cb.category es / cb.limit * 100)
          else 0 } := by
  have hpct : round2 (if cb.limit > 0 then
        spentInPeriod userId b.period cb.category es / cb.limit * 100 else 0) =
      (if cb.limit > 0 then
        round2 (spentInPeriod userId b.period cb.category es / cb.limit * 100)
      else 0) := by
    split_ifs <;> simp [round2_zero]
  unfold calculateBudgetProgress
  dsimp only
  rw [List.getElem?_map, h, Option.map_some']
  rw [categorySpending_eq_spentInPeriod, hpct]

/-- A one-category budget over January 2025. -/
def periodBudget : Budget :=
  { userId := "u1", name := "January", type := "monthly",
    period := ⟨⟨2025, 1, 1⟩, ⟨2025, 1, 31⟩⟩,
    categoryBudgets := [{ category := "Food", limit := 100, spent := 0,
                          remaining := 100, percentage := 0 }],
    totalLimit := 100, totalSpent := 0, totalRemaining := 100,
    alerts := [], isActive := true }

/-- A Food expense of 85 inside that period. -/
def groceriesExpense : Expense :=
  { userId := "u1", amount := 85, category := "Food",
    description := "Groceries", date := ⟨2025, 1, 10⟩, aiSuggested := false,
    recurringExpenseId := none }

/-- C1 witness: the per-category formulas at the concrete one-category
budget and one in-period expense. -/
theorem C1_per_category_progress_witness :
    (periodBudget.categoryBudgets[0]? =
       some { category := "Food", limit := 100, spent := 0, remaining := 100,
              percentage := 0 }) ∧
    (calculateBudgetProgress periodBudget "u1" [groceriesExpense] "T0").categoryBudgets[0]? =
      some { category := "Food", limit := 100,
             spent := round2 (spentInPeriod "u1" periodBudget.period "Food"
               [groceriesExpense]),
             remaining := round2 ((100:ℚ) - spentInPeriod "u1" periodBudget.period
               "Food" [groceriesExpense]),
             percentage :=
               if (100:ℚ) > 0 then
                 round2 (spentInPeriod "u1" periodBudget.period "Food"
                   [groceriesExpense] / 100 * 100)
               else 0 } :=
  ⟨rfl, C1_per_category_progress periodBudget "u1" [groceriesExpense] "T0" 0 _ rfl⟩

/-- `limit || spent || 0` collapses to the limit for entries with a nonzero
limit or a zero spent. -/
theorem limitOrSpent_eq_limit {cb : CategoryBudget}
    (h : cb.limit ≠ 0 ∨ cb.spent = 0) : limitOrSpent cb = cb.limit := by
  unfold limitOrSpent
  rcases h with h | h
  · rw [if_pos h]
  · split_ifs with h1 h2
    · rfl
    · exact absurd h h2
    · push_neg at h1
      rw [h1]

/-- A stored one-category budget over July 2025 satisfying the invariant. -/
def julyBudget : Budget :=
  { userId := "u7", name := "July", type := "monthly",
    period := ⟨⟨2025, 7, 1⟩, ⟨2025, 7, 31⟩⟩,
    categoryBudgets := [{ category := "Food", limit := 100, spent := 0,
                          remaining := 100, percentage := 0 }],
    totalLimit := 100, totalSpent := 0, totalRemaining := 100,
    alerts := [], isActive := true }

/-- An update replacing the category budgets with one zero-limit entry that
still carries a spent amount. -/
def zeroLimitEdit : BudgetUpdate :=
  { name := none, type := none, period := none,
    categoryBudgets := some [{ category := "Food", limit := 0, spent := 5,
                               remaining := 0, percentage := 0 }],
    totalLimit := none, alerts := none, isActive := none }

/-- An update supplying only a raw `totalLimit` (no `categoryBudgets`):
`validatePartialBudget` never looks at it and the handler's body spread
persists it verbatim. -/
def rawTotalLimitEdit : BudgetUpdate :=
  { name := none, type := none, period := none, categoryBudgets := none,
    totalLimit := some 42, alerts := none, isActive := none }

/-- C7 counterexample: two updates break the invariant.  The zero-limit
update passes validation and persists `totalLimit = 5` (the
`limit || spent || 0` fallback picks the spent value) while the stored
limits sum to 0; and an update carrying only `totalLimit: 42` persists 42
verbatim (the spread deletes `totalSpent`/`totalRemaining` but not
`totalLimit`) while the stored limits still sum to 100. -/
theorem C7_counterexample :
    (updateBudget julyBudget zeroLimitEdit).toOption.map Budget.totalLimit =
      some 5 ∧
    (updateBudget julyBudget zeroLimitEdit).toOption.map
      (fun b => (b.categoryBudgets.map CategoryBudget.limit).sum) = some 0 ∧
    ((5:ℚ) ≠ 0) ∧
    (updateBudget julyBudget rawTotalLimitEdit).toOption.map Budget.totalLimit =
      some 42 ∧
    (updateBudget julyBudget rawTotalLimitEdit).toOption.map
      (fun b => (b.categoryBudgets.map CategoryBudget.limit).sum) = some 100 ∧
    ((42:ℚ) ≠ 100) := by
  refine ⟨?_, ?_, by norm_num, ?_, ?_, by norm_num⟩ <;>
    simp [updateBudget, validatePartialBudget, julyBudget, zeroLimitEdit,
      rawTotalLimitEdit, limitOrSpent, jsTrim, Except.toOption]

/-- C7 (amended): `totalLimit` equals the sum of the category limits after
every creation, and after an update whenever the body's `categoryBudgets`,
when supplied, has only entries with a nonzero limit or a zero spent, and
the body smuggles no raw `totalLimit` alongside an absent `categoryBudgets`.
Otherwise the stored `totalLimit` absorbs an entry's spent value through
the `limit || spent || 0` fallback, or the body's verbatim `totalLimit`
(which the handler's spread persists unchecked). -/
theorem C7_totalLimit_invariant :
    (∀ (userId : String) (body : BudgetInput) (es : List Expense)
        (now : String) (b : Budget),
        createBudget userId body es now = Except.ok b →
        b.totalLimit = (b.categoryBudgets.map CategoryBudget.limit).sum) ∧
    (∀ (b : Budget) (body : BudgetUpdate) (b' : Budget),
        updateBudget b body = Except.ok b' →
        b.totalLimit = (b.categoryBudgets.map CategoryBudget.limit).sum →
        (∀ l, body.categoryBudgets = some l →
          ∀ cb ∈ l, cb.limit ≠ 0 ∨ cb.spent = 0) →
        (body.categoryBudgets = none → body.totalLimit = none) →
        b'.totalLimit = (b'.categoryBudgets.map CategoryBudget.limit).sum) := by
  constructor
  · intro userId body es now b hok
    unfold createBudget at hok
    split_ifs at hok
    have hb : b = calculateBudgetProgress (sanitizeBudget body userId) userId es now := by
      injection hok with h
      exact h.symm
    subst hb
    rw [calculateBudgetProgress_totalLimit, calculateBudgetProgress_limits]
    exact sanitizeBudget_totalLimit body userId
  · intro b body b' hok hinv hentries hraw
    unfold updateBudget at hok
    split_ifs at hok
    have hb : b' = { b with
        name := body.name.getD b.name
        type := body.type.getD b.type
        period := body.period.getD b.period
        alerts := body.alerts.getD b.alerts
        isActive := body.isActive.getD b.isActive
        categoryBudgets := body.categoryBudgets.getD b.categoryBudgets
        totalLimit :=
          match body.categoryBudgets with
          | some l => (l.map limitOrSpent).sum
          | none => body.totalLimit.getD b.totalLimit } := by
      injection hok with h
      exact h.symm
    subst hb
    cases hcb : body.categoryBudgets with
    | none => simpa [hcb, hraw hcb] using hinv
    | some l =>
      simp only [hcb, Option.getD_some]
      have : l.map limitOrSpent = l.map CategoryBudget.limit :=
        List.map_congr_left (fun cb hcbmem =>
          limitOrSpent_eq_limit (hentries l hcb cb hcbmem))
      rw [this]

/-- An active budget covering Jan 2025 with nothing spent. -/
def reconcileBudget : Budget :=
  { userId := "u3", name := "Jan", type := "monthly",
    period := ⟨⟨2025, 1, 1⟩, ⟨2025, 1, 31⟩⟩,
    categoryBudgets := [{ category := "Food", limit := 100, spent := 0,
                          remaining := 100, percentage := 0 }],
    totalLimit := 100, totalSpent := 0, totalRemaining := 100,
    alerts := [], isActive := true }

/-- A valid expense body inside that budget's period. -/
def reconcileInput : ExpenseInput :=
  { amount := 85, category := "Food", description := "Groceries",
    date := ⟨2025, 1, 10⟩, aiSuggested := none }

/-- The document `createExpense` stores for that body. -/
def reconcileExpense : Expense :=
  { userId := "u3", amount := 85, category := "Food",
    description := "Groceries", date := ⟨2025, 1, 10⟩, aiSuggested := false,
    recurringExpenseId := none }

/-- C3: no expense handler ever writes the budgets store - the batch
reconciliation helper `updateAffectedBudgets` is defined and exported but
has no caller - so creating an in-period expense leaves the persisted
progress stale (stored totalSpent 0) while a live recompute of the same
budget over the new expense store yields totalSpent 85. -/
theorem C3_expense_mutations_never_reconcile_budgets :
    (∀ (s : Stores) (userId : String) (body : ExpenseInput),
        (createExpense s userId body).1.budgets = s.budgets) ∧
    (∀ (s : Stores) (idx : Nat) (userId : String) (body : ExpenseUpdate),
        (updateExpense s idx userId body).1.budgets = s.budgets) ∧
    (∀ (s : Stores) (idx : Nat) (userId : String),
        (deleteExpense s idx userId).1.budgets = s.budgets) ∧
    ((createExpense ⟨[], [reconcileBudget]⟩ "u3" reconcileInput).1.budgets.map
       Budget.totalSpent = [0]) ∧
    ((calculateBudgetProgress reconcileBudget "u3"
        (createExpense ⟨[], [reconcileBudget]⟩ "u3" reconcileInput).1.expenses
        "T0").totalSpent = 85) := by
  refine ⟨?_, ?_, ?_, by decide, ?_⟩
  · intro s userId body
    unfold createExpense
    split_ifs <;> rfl
  · intro s idx userId body
    unfold updateExpense
    split_ifs with h
    · cases hx : s.expenses[idx]? with
      | none => simp [hx]
      | some e => simp only [hx]; split_ifs <;> rfl
    · rfl
  · intro s idx userId
    unfold deleteExpense
    cases hx : s.expenses[idx]? with
    | none => simp [hx]
    | some e => simp only [hx]; split_ifs <;> rfl
  · have hexp : (createExpense ⟨[], [reconcileBudget]⟩ "u3" reconcileInput).1.expenses =
        [reconcileExpense] := by decide
    rw [hexp]
    simp +decide [calculateBudgetProgress, categorySpending, reconcileBudget,
      reconcileExpense, round2, List.filter]
    norm_num [round_eq]

/-- A one-category budget with an untriggered 50% alert. -/
def alertBudget : Budget :=
  { userId := "u2", name := "Jan", type := "monthly",
    period := ⟨⟨2025, 1, 1⟩, ⟨2025, 1, 31⟩⟩,
    categoryBudgets := [{ category := "Food", limit := 100, spent := 0,
                          remaining := 100, percentage := 0 }],
    totalLimit := 100, totalSpent := 0, totalRemaining := 100,
    alerts := [{ category := "Food", threshold := 50, triggered := false,
                 triggeredAt := none }],
    isActive := true }

/-- A Food expense of 85 inside that period (85% of the limit). -/
def alertExpense : Expense :=
  { userId := "u2", amount := 85, category := "Food", description := "Dining",
    date := ⟨2025, 1, 10⟩, aiSuggested := false, recurringExpenseId := none }

/-- C2 counterexample: a recompute with the 85 expense triggers the alert
(85 >= 50, stamped T0); a second recompute with the expense gone sets
`triggered` back to false - the flag is recomputed, not latched - while
`triggeredAt` keeps the original stamp. -/
theorem C2_counterexample :
    (calculateBudgetProgress alertBudget "u2" [alertExpense] "T0").alerts =
      [{ category := "Food", threshold := 50, triggered := true,
         triggeredAt := some "T0" }] ∧
    (calculateBudgetProgress
        (calculateBudgetProgress alertBudget "u2" [alertExpense] "T0")
        "u2" [] "T1").alerts =
      [{ category := "Food", threshold := 50, triggered := false,
         triggeredAt := some "T0" }] := by
  have hsp : round2 ((85:ℚ)) = 85 := by norm_num [round2, round_eq]
  have hrem : round2 ((100:ℚ) - 85) = 15 := by norm_num [round2, round_eq]
  have hpct : round2 ((85:ℚ) / 100 * 100) = 85 := by norm_num [round2, round_eq]
  have hr100 : round2 ((100:ℚ)) = 100 := by norm_num [round2, round_eq]
  have h1 : calculateBudgetProgress alertBudget "u2" [alertExpense] "T0" =
      { alertBudget with
        categoryBudgets := [{ category := "Food", limit := 100, spent := 85,
                              remaining := 15, percentage := 85 }]
        totalSpent := 85
        totalRemaining := 15
        alerts := [{ category := "Food", threshold := 50, triggered := true,
                     triggeredAt := some "T0" }] } := by
    simp +decide [calculateBudgetProgress, categorySpending, alertBudget,
      alertExpense, List.filter, List.find?, hsp, hrem, hpct]
  constructor
  · rw [h1]
  · rw [h1]
    simp +decide [calculateBudgetProgress, categorySpending, alertBudget,
      List.filter, List.find?, round2_zero, hr100]

/-- C2 (amended): on every recompute an alert's `triggered` is set afresh to
`percentage >= threshold` of its category's freshly computed entry - the
flag drops back to false when the percentage falls below the threshold -
while `triggeredAt` is stamped on a false-to-true transition and otherwise
preserved (already-triggered alerts keep their original stamp, and a
non-null stamp never becomes null); only `configureAlerts` resets
`triggered` to false and `triggeredAt` to null. -/
theorem C2_alert_recompute_and_timestamp_latch :
    (∀ (b : Budget) (userId : String) (es : List Expense) (now : String)
        (i : Nat) (a a' : Alert) (cb : CategoryBudget),
        b.alerts[i]? = some a →
        (calculateBudgetProgress b userId es now).alerts[i]? = some a' →
        (calculateBudgetProgress b userId es now).categoryBudgets.find?
          (fun x => x.category == a.category) = some cb →
        ((a'.triggered = true) ↔ cb.percentage ≥ a.threshold) ∧
        a'.triggeredAt = (if cb.percentage ≥ a.threshold ∧ a.triggered = false
                          then some now else a.triggeredAt) ∧
        (a.triggered = true → a'.triggeredAt = a.triggeredAt) ∧
        (a.triggeredAt ≠ none → a'.triggeredAt ≠ none)) ∧
    (∀ (b : Budget) (alerts : List AlertInput) (b' : Budget),
        configureAlerts b alerts = Except.ok b' →
        ∀ al ∈ b'.alerts, al.triggered = false ∧ al.triggeredAt = none) := by
  constructor
  · intro b userId es now i a a' cb ha ha' hfind
    unfold calculateBudgetProgress at ha' hfind
    dsimp only at ha' hfind
    rw [List.getElem?_map, ha, Option.map_some'] at ha'
    rw [hfind] at ha'
    simp only [Option.some.injEq] at ha'
    subst ha'
    refine ⟨?_, ?_, ?_, ?_⟩
    · simp
    · by_cases hp : cb.percentage ≥ a.threshold <;>
        cases htr : a.triggered <;> simp [hp, htr]
    · intro htr
      simp [htr]
    · intro hne
      by_cases hp : cb.percentage ≥ a.threshold <;>
        cases htr : a.triggered <;> simp [hp, htr, hne]
  · intro b alerts b' hok al hal
    unfold configureAlerts at hok
    split_ifs at hok
    injection hok with h
    subst h
    dsimp only at hal
    obtain ⟨x, _, rfl⟩ := List.mem_map.mp hal
    exact ⟨rfl, rfl⟩
